import Mathlib

set_option maxRecDepth 8000

/-!
Shallow embedding of `src/qmodem/qparse.py` (tuxedo-Lounge-bbs), the Qmodem
capture-log parser.  Python `datetime` values are modelled as epoch seconds
(`Int`); `None`-able attributes as `Option`; code that can raise (attribute
access on `None`, `strptime` failures, `int()` conversion) returns
`Except PyErr`.  The regular expressions of the source are embedded as
deterministic matchers implementing the exact Python `re` backtracking
semantics for these patterns (leftmost match for `.search`, anchored for
`.match`, lazy `+?` and greedy `+` quantifiers over the character classes
used; `.` matches any character except a newline; inputs are assumed ASCII,
matching the capture logs).
-/

namespace QParse

/-- Python exception kinds reachable in the modelled code paths. -/
inductive PyErr
  | typeError
  | attributeError
  | valueError
deriving DecidableEq, Repr

/-- Python `\s` (whitespace class) restricted to ASCII. -/
def isSpaceC (c : Char) : Bool :=
  c = ' ' || c = '\t' || c = '\n' || c = '\r' || c = '\x0b' || c = '\x0c'

/-- Numeric value of a run of decimal digit characters. -/
def natOfDigits (l : List Char) : Nat :=
  l.foldl (fun a c => a * 10 + (c.toNat - 48)) 0

/-- Python `str.strip()` (both ends, whitespace) for ASCII strings. -/
def pyStrip (s : String) : String :=
  String.mk (((s.data.dropWhile isSpaceC).reverse.dropWhile isSpaceC).reverse)

/-- Python `int(s)` on a string with no surrounding whitespace: an optional
sign followed by at least one digit, else `ValueError`.  (CPython also
accepts digit-group underscores; the capture logs never contain them.) -/
def pyInt (s : String) : Except PyErr Int :=
  match s.data with
  | '-' :: rest =>
    if (!rest.isEmpty) && rest.all Char.isDigit then .ok (-(natOfDigits rest : Int))
    else .error .valueError
  | '+' :: rest =>
    if (!rest.isEmpty) && rest.all Char.isDigit then .ok (natOfDigits rest : Int)
    else .error .valueError
  | cs =>
    if (!cs.isEmpty) && cs.all Char.isDigit then .ok (natOfDigits cs : Int)
    else .error .valueError

/-! ## Timestamp parsing (`parse_log_ts`, format `%m-%d-%y %H:%M:%S`) -/

/-- Decompose a string of the exact shape `\d\d-\d\d-\d\d \d\d:\d\d:\d\d`
into its six numeric fields.  Every call site of `parse_log_ts` in
`read_file` passes a regex capture of exactly this shape (Python `strptime`
would additionally accept one-digit fields, unreachable here). -/
def tsFields (s : List Char) : Option (Nat × Nat × Nat × Nat × Nat × Nat) :=
  match s with
  | [a, b, c, d, e, f, g, h, i, j, k, l, m, n, o, p, q] =>
    if a.isDigit && b.isDigit && c = '-' && d.isDigit && e.isDigit && f = '-' &&
       g.isDigit && h.isDigit && i = ' ' && j.isDigit && k.isDigit && l = ':' &&
       m.isDigit && n.isDigit && o = ':' && p.isDigit && q.isDigit then
      some (natOfDigits [a, b], natOfDigits [d, e], natOfDigits [g, h],
            natOfDigits [j, k], natOfDigits [m, n], natOfDigits [p, q])
    else none
  | _ => none

def isLeapYear (y : Nat) : Bool :=
  (y % 4 == 0 && y % 100 != 0) || y % 400 == 0

def daysInMonth (y m : Nat) : Nat :=
  if m = 2 then (if isLeapYear y then 29 else 28)
  else if m = 4 || m = 6 || m = 9 || m = 11 then 30
  else 31

/-- Days from 1970-01-01 to year `y`, month `m`, day `d` (proleptic
Gregorian, standard civil-from-days algorithm; valid for the years 1969-2068
produced by the two-digit-year rule). -/
def daysFromCivil (y m d : Nat) : Int :=
  let y2 := if m ≤ 2 then y - 1 else y
  let era := y2 / 400
  let yoe := y2 % 400
  let mp := (m + 9) % 12
  let doy := (153 * mp + 2) / 5 + d - 1
  let doe := yoe * 365 + yoe / 4 - yoe / 100 + doy
  ((era * 146097 + doe : Nat) : Int) - 719468

/-- `datetime.strptime(ts, '%m-%d-%y %H:%M:%S')` as epoch seconds; the
two-digit year maps to 2000-2068 / 1969-1999 per POSIX.  Raises
`ValueError` on shape or range violations, exactly as `strptime` /
`datetime` do. -/
def parse_log_ts (s : String) : Except PyErr Int :=
  match tsFields s.data with
  | none => .error .valueError
  | some (mo, d, yy, hh, mi, ss) =>
    let y := if yy ≤ 68 then 2000 + yy else 1900 + yy
    if 1 ≤ mo && mo ≤ 12 && 1 ≤ d && d ≤ daysInMonth y mo &&
       hh ≤ 23 && mi ≤ 59 && ss ≤ 59 then
      .ok (daysFromCivil y mo d * 86400 + (hh * 3600 + mi * 60 + ss : Nat))
    else .error .valueError

/-! ## Data model -/

/-- `ConnectionType` enum of the source.  Note the enum has no member named
`DIRECT`; `read_file` line 472 nevertheless references
`ConnectionType.DIRECT`, which raises `AttributeError` at run time. -/
inductive ConnectionType
  | MODEM
  | DIRECTSERIAL
deriving DecidableEq, Repr

/-- The class-level (process-wide) counters of `CallRecord`, threaded
explicitly. Declaration order matches the source. -/
structure Counters where
  count_start_dial : Nat := 0
  count_connected : Nat := 0
  count_download_failure : Nat := 0
  count_download_success : Nat := 0
deriving DecidableEq, Repr

/-- A value stored in a parsed ATI diagnostic block: `int` for all-digit
matches, a string otherwise. -/
inductive ATIVal
  | int (n : Int)
  | str (s : String)
deriving DecidableEq, Repr

/-- The per-call record (dataclass `CallRecord`).  `remote_reliable` is
declared `Optional[bool]` in the source but the banner branch assigns it the
raw regex group (a string or `None`), so it is modelled as `Option String`.
`remote_ansi` is declared but never assigned anywhere; the banner branch
instead dynamically adds the attribute `remote_ansi_detected`, modelled as
its own field.  The `ati6`/`ati11` parser objects are modelled by their
parsed data mapping. The unused `aty11`/`atv` fields are never written and
are omitted. -/
structure CallRecord where
  connected : Option Bool := none
  start_qmodem : Option Int := none
  start_dial : Option Int := none
  connect_time : Option Int := none
  start_download : Option Int := none
  end_download : Option Int := none
  download_success : Option Bool := none
  end_call : Option Int := none
  exit_qmodem : Option Int := none
  aborted_time : Option Int := none
  abort_reason : Option String := none
  connect_type : Option ConnectionType := some .MODEM
  remote_connect_bps : Option Int := none
  remote_reliable : Option String := none
  remote_ansi : Option Bool := none
  remote_ansi_detected : Option String := none
  download_cps : Option Int := none
  ati6 : Option (List (String × ATIVal)) := none
  ati11 : Option (List (String × ATIVal)) := none
deriving DecidableEq, Repr

/-- `CallRecord()` construction: `__post_init__` increments the class-level
attempt counter. -/
def CallRecord.new (cs : Counters) : Counters × CallRecord :=
  ({ cs with count_start_dial := cs.count_start_dial + 1 }, {})

/-- `CallRecord.mark_connected`. -/
def CallRecord.mark_connected (cs : Counters) (r : CallRecord) (success : Bool) :
    Counters × CallRecord :=
  (if success then { cs with count_connected := cs.count_connected + 1 } else cs,
   { r with connected := some success })

/-- `CallRecord.mark_download_success`. -/
def CallRecord.mark_download_success (cs : Counters) (r : CallRecord) (success : Bool) :
    Counters × CallRecord :=
  if success then
    ({ cs with count_download_success := cs.count_download_success + 1 },
     { r with download_success := some true })
  else
    ({ cs with count_download_failure := cs.count_download_failure + 1 },
     { r with download_success := some false })

/-- `CallRecord.connect_failure_count` (classmethod, over the counters). -/
def connect_failure_count (cs : Counters) : Int :=
  (cs.count_start_dial : Int) - (cs.count_connected : Int)

/-- `CallRecord.connect_success_percent` (classmethod).  Python computes in
floating point; `Rat` models the arithmetic exactly, which is faithful for
the guarded zero branch the claims are about. -/
def connect_success_percent (cs : Counters) : Rat :=
  if cs.count_start_dial = 0 then 0
  else ((cs.count_connected : Rat) / (cs.count_start_dial : Rat)) * 100

/-- Python `datetime` subtraction composed with `int(...total_seconds())`:
defined on two present whole-second instants (the difference of
whole-second datetimes is exact), `TypeError` if either operand is `None`. -/
def subTs (a b : Option Int) : Except PyErr Int :=
  match a, b with
  | some x, some y => .ok (x - y)
  | _, _ => .error .typeError

/-- `CallRecord.termination_reason`.  Python truthiness of a datetime field
is `isSome`.  When `aborted_time` is set but `connect_time` is `None` the
subtraction raises `TypeError`. -/
def CallRecord.termination_reason (r : CallRecord) : Except PyErr (Option String) :=
  if r.aborted_time.isSome then
    match subTs r.aborted_time r.connect_time with
    | .ok d => .ok (some ("ABORTED after " ++ toString d ++ " sec."))
    | .error e => .error e
  else if r.end_call.isSome then .ok (some "normal")
  else .ok (some "unknown")

/-- `CallRecord.call_duration`. -/
def CallRecord.call_duration (r : CallRecord) : Except PyErr (Option Int) :=
  if r.connect_type = some ConnectionType.DIRECTSERIAL then
    match subTs r.exit_qmodem r.start_qmodem with
    | .ok d => .ok (some d)
    | .error e => .error e
  else if r.end_call.isSome then
    match subTs r.end_call r.connect_time with
    | .ok d => .ok (some d)
    | .error e => .error e
  else if r.aborted_time.isSome then
    match subTs r.aborted_time r.connect_time with
    | .ok d => .ok (some d)
    | .error e => .error e
  else if r.exit_qmodem.isSome then
    match subTs r.exit_qmodem r.connect_time with
    | .ok d => .ok (some d)
    | .error e => .error e
  else .ok none

/-- `CallRecord.download_duration`: only computed when the download
succeeded (Python truthiness: `None` and `False` both skip). -/
def CallRecord.download_duration (r : CallRecord) : Except PyErr (Option Int) :=
  if r.download_success = some true then
    match subTs r.end_download r.start_download with
    | .ok d => .ok (some d)
    | .error e => .error e
  else .ok none

/-- `CallRecord.download_success_msg`. -/
def CallRecord.download_success_msg (r : CallRecord) : Option String :=
  match r.download_success with
  | some true => some "SUCCESS"
  | some false => some "FAILED"
  | none => none

/-- `CallRecord.handshake_duration`. -/
def CallRecord.handshake_duration (r : CallRecord) : Except PyErr (Option Int) :=
  if r.connect_type = some ConnectionType.DIRECTSERIAL then .ok (some 0)
  else if r.start_dial.isSome && r.connect_time.isSome then
    match subTs r.connect_time r.start_dial with
    | .ok d => .ok (some d)
    | .error e => .error e
  else .ok none

/-- `CallSessionStore.durations`: projection over the store keeping only
present results, in store order. -/
def durations {α : Type} (records : List CallRecord) (f : CallRecord → Option α) : List α :=
  records.foldr (fun r acc => match f r with | some v => v :: acc | none => acc) []

/-- The download-success percentage computed in
`CallSessionStore.report_aggregates` (lines 246-251): `100.0` whenever the
failure counter is zero, otherwise `success / (success + failure) * 100`
(the division is reached only when the failure counter is positive). -/
def download_success_pct (cs : Counters) : Rat :=
  if cs.count_download_failure = 0 then 100
  else ((cs.count_download_success : Rat) /
        ((cs.count_download_success : Rat) + (cs.count_download_failure : Rat))) * 100

/-! ## Embedded regular-expression matchers

Each matcher implements the Python `re` semantics of one pattern from the
source.  `searchFrom` gives `.search` (try each start position left to
right); a bare matcher application gives `.match` (anchored at the start).
Backtracking points that are provably forced (a greedy run over a character
class followed by a disjoint class) are evaluated deterministically; the
genuinely ambiguous points (`\s+` followed by `.`) backtrack explicitly. -/

/-- Consume a literal prefix. -/
def litP : List Char → List Char → Option (List Char)
  | [], s => some s
  | _ :: _, [] => none
  | c :: cs, x :: xs => if c = x then litP cs xs else none

/-- `re.match` of a bare literal pattern: does the line start with it? -/
def litB (lit : String) (cs : List Char) : Bool :=
  (litP lit.data cs).isSome

/-- `re.search`: try the matcher at each start position, leftmost first. -/
def searchFrom {α : Type} (mat : List Char → Option α) : List Char → Option α
  | [] => mat []
  | c :: cs =>
    match mat (c :: cs) with
    | some r => some r
    | none => searchFrom mat cs

/-- Split into the maximal prefix run satisfying `p` and the rest. -/
def takeWhileSplit (p : Char → Bool) : List Char → List Char × List Char
  | [] => ([], [])
  | c :: cs =>
    if p c then
      let r := takeWhileSplit p cs
      (c :: r.1, r.2)
    else ([], c :: cs)

/-- The timestamp sub-pattern `\d{2}-\d{2}-\d{2} \d{2}:\d{2}:\d{2}`:
consume exactly 17 chars of that shape, return (capture, rest). -/
def matchTs (s : List Char) : Option (List Char × List Char) :=
  match s with
  | a :: b :: c :: d :: e :: f :: g :: h :: i :: j :: k :: l :: m :: n :: o :: p :: q :: rest =>
    if a.isDigit && b.isDigit && c = '-' && d.isDigit && e.isDigit && f = '-' &&
       g.isDigit && h.isDigit && i = ' ' && j.isDigit && k.isDigit && l = ':' &&
       m.isDigit && n.isDigit && o = ':' && p.isDigit && q.isDigit then
      some ([a, b, c, d, e, f, g, h, i, j, k, l, m, n, o, p, q], rest)
    else none
  | _ => none

/-- A marker pattern `<literal>(?P<ts>\d{2}-...)` anchored at the current
position, capturing the timestamp. -/
def tsMarkerAt (lit : List Char) (s : List Char) : Option (List Char) :=
  match litP lit s with
  | some r => (matchTs r).map (fun p => p.1)
  | none => none

/-- `r_start_qmodem` anchored at the current position:
`#### start_qmodem (?:testsize:(\S+)\sproto:(\S+)\s)?(ts)`.  The optional
group is tried first; if the timestamp then fails the engine retries
without the group.  The `(\S+)\s` runs are forced (non-space run maximal,
then exactly one whitespace).  Only the timestamp capture is used by
`read_file`. -/
def startQmodemAt (s : List Char) : Option (List Char) :=
  match litP "#### start_qmodem ".data s with
  | none => none
  | some r =>
    let withGroup : Option (List Char) :=
      match litP "testsize:".data r with
      | none => none
      | some r1 =>
        let p1 := takeWhileSplit (fun c => !isSpaceC c) r1
        if p1.1.isEmpty then none
        else
          match p1.2 with
          | c :: r3 =>
            if isSpaceC c then
              match litP "proto:".data r3 with
              | none => none
              | some r4 =>
                let p2 := takeWhileSplit (fun c => !isSpaceC c) r4
                if p2.1.isEmpty then none
                else
                  match p2.2 with
                  | c2 :: r6 =>
                    if isSpaceC c2 then (matchTs r6).map (fun p => p.1) else none
                  | [] => none
            else none
          | [] => none
    match withGroup with
    | some ts => some ts
    | none => (matchTs r).map (fun p => p.1)

/-- `r_abort` anchored: `### aborting (ts)(,\s|\s-\s)(.*)`, capturing the
timestamp and the reason (`.*` runs to the end of the line, stopping at a
newline). -/
def abortAt (s : List Char) : Option (List Char × List Char) :=
  match litP "### aborting ".data s with
  | none => none
  | some r =>
    match matchTs r with
    | none => none
    | some (ts, r2) =>
      let sep1 : Option (List Char) :=
        match r2 with
        | ',' :: c :: r3 => if isSpaceC c then some r3 else none
        | _ => none
      let sep2 : Option (List Char) :=
        match r2 with
        | c1 :: '-' :: c2 :: r3 => if isSpaceC c1 && isSpaceC c2 then some r3 else none
        | _ => none
      match sep1 with
      | some r3 => some (ts, r3.takeWhile (fun c => c ≠ '\n'))
      | none =>
        match sep2 with
        | some r3 => some (ts, r3.takeWhile (fun c => c ≠ '\n'))
        | none => none

/-- `r_wc_banner` anchored:
`Connected at (\d+) bps.(Reliable connection.\s+)?(ANSI detected.)?`.
Captures (bps digits, optional reliable group text, optional ANSI group
text); the group texts include exactly what the regex groups match (the
reliable group keeps its trailing whitespace run). -/
def wcBannerAt (s : List Char) : Option (List Char × Option (List Char) × Option (List Char)) :=
  match litP "Connected at ".data s with
  | none => none
  | some r =>
    let pd := takeWhileSplit Char.isDigit r
    if pd.1.isEmpty then none
    else
      match litP " bps".data pd.2 with
      | none => none
      | some r2 =>
        match r2 with
        | c :: r3 =>
          if c = '\n' then none
          else
            let opt1 : Option (List Char × List Char) :=
              match litP "Reliable connection".data r3 with
              | none => none
              | some r4 =>
                match r4 with
                | c2 :: r5 =>
                  if c2 = '\n' then none
                  else
                    let pw := takeWhileSplit isSpaceC r5
                    if pw.1.isEmpty then none
                    else some ("Reliable connection".data ++ [c2] ++ pw.1, pw.2)
                | [] => none
            let rest1 := match opt1 with
              | some g => g.2
              | none => r3
            let opt2 : Option (List Char) :=
              match litP "ANSI detected".data rest1 with
              | none => none
              | some r8 =>
                match r8 with
                | c3 :: _ => if c3 = '\n' then none else some ("ANSI detected".data ++ [c3])
                | [] => none
            some (pd.1, (opt1.map (fun g => g.1)), opt2)
        | [] => none

/-- `r_dl_status_cps` anchored:
`\S+\s+-\s+(SUCCESSFUL!|UNSUCCESSFUL.)(?:\s+CPS = (\S+))?`.
All quantified runs here are forced (each is followed by a disjoint
requirement). -/
def dlStatusAt (s : List Char) : Option (List Char × Option (List Char)) :=
  let pw := takeWhileSplit (fun c => !isSpaceC c) s
  if pw.1.isEmpty then none
  else
    let ps1 := takeWhileSplit isSpaceC pw.2
    if ps1.1.isEmpty then none
    else
      match ps1.2 with
      | '-' :: r3 =>
        let ps2 := takeWhileSplit isSpaceC r3
        if ps2.1.isEmpty then none
        else
          let stat : Option (List Char × List Char) :=
            match litP "SUCCESSFUL!".data ps2.2 with
            | some r5 => some ("SUCCESSFUL!".data, r5)
            | none =>
              match litP "UNSUCCESSFUL".data ps2.2 with
              | some r5 =>
                match r5 with
                | c :: r6 => if c = '\n' then none else some ("UNSUCCESSFUL".data ++ [c], r6)
                | [] => none
              | none => none
          match stat with
          | none => none
          | some (g1, r5) =>
            let cps : Option (List Char) :=
              let ps3 := takeWhileSplit isSpaceC r5
              if ps3.1.isEmpty then none
              else
                match litP "CPS = ".data ps3.2 with
                | none => none
                | some r7 =>
                  let pv := takeWhileSplit (fun c => !isSpaceC c) r7
                  if pv.1.isEmpty then none else some pv.1
            some (g1, cps)
      | _ => none

def startQmodemSearch (cs : List Char) : Option (List Char) :=
  searchFrom startQmodemAt cs

def abortSearch (cs : List Char) : Option (List Char × List Char) :=
  searchFrom abortAt cs

def startDialSearch (cs : List Char) : Option (List Char) :=
  searchFrom (tsMarkerAt "#### start_dial ".data) cs

def connectedSearch (cs : List Char) : Option (List Char) :=
  searchFrom (tsMarkerAt "#### connected ".data) cs

def wcBannerSearch (cs : List Char) :
    Option (List Char × Option (List Char) × Option (List Char)) :=
  searchFrom wcBannerAt cs

def startDownloadSearch (cs : List Char) : Option (List Char) :=
  searchFrom (tsMarkerAt "### start_download ".data) cs

def endDownloadSearch (cs : List Char) : Option (List Char) :=
  searchFrom (tsMarkerAt "### end_download ".data) cs

def dlStatusSearch (cs : List Char) : Option (List Char × Option (List Char)) :=
  searchFrom dlStatusAt cs

/-- `r_end_call.match`: anchored at line start. -/
def endCallMatch (cs : List Char) : Option (List Char) :=
  tsMarkerAt "#### end_call ".data cs

/-- `r_exit_qmodem.match`: anchored at line start. -/
def exitQmodemMatch (cs : List Char) : Option (List Char) :=
  tsMarkerAt "#### exit_qmodem ".data cs

/-! ## ATI diagnostic-block field parser (`ATIParserBase.parse_output`) -/

/-- Forced tail `\s+(\d+)`: a maximal whitespace run (at least one char)
then a maximal digit run (at least one char); returns (digits, rest). -/
def wsDigits (s : List Char) : Option (List Char × List Char) :=
  let p := takeWhileSplit isSpaceC s
  if p.1.isEmpty then none
  else
    let q := takeWhileSplit Char.isDigit p.2
    if q.1.isEmpty then none else some (q.1, q.2)

/-- Lazy tail `(.+?)\s+(\d+)` at the end of pattern 1: the lazy group grows
one character at a time, the rest is forced.  Returns (group, digits). -/
def lazyKeyDigits (s : List Char) : Option (List Char × List Char) :=
  match s with
  | [] => none
  | c :: cs =>
    if c = '\n' then none
    else
      match wsDigits cs with
      | some p => some ([c], p.1)
      | none =>
        match lazyKeyDigits cs with
        | some q => some (c :: q.1, q.2)
        | none => none

/-- Greedy backtracking of the middle `\s+` of pattern 1: `run` is the
maximal whitespace run, and the engine first consumes all of it, then one
char fewer, and so on down to a single char, before failing.  (`.` in the
following lazy group also matches whitespace, so this backtracking point
is genuine.) -/
def tryWs (run rest : List Char) : Nat → Option (List Char × List Char)
  | 0 => none
  | Nat.succ k =>
    match lazyKeyDigits (run.drop (Nat.succ k) ++ rest) with
    | some r => some r
    | none => tryWs run rest k

/-- Tail of pattern 1 after the first lazy group:
`\s+(\d+)\s+(.+?)\s+(\d+)`; returns (value1, key2, value2). -/
def patATail (s : List Char) : Option (List Char × List Char × List Char) :=
  let p := takeWhileSplit isSpaceC s
  if p.1.isEmpty then none
  else
    let q := takeWhileSplit Char.isDigit p.2
    if q.1.isEmpty then none
    else
      let w := takeWhileSplit isSpaceC q.2
      if w.1.isEmpty then none
      else
        match tryWs w.1 w.2 w.1.length with
        | some g34 => some (q.1, g34.1, g34.2)
        | none => none

/-- Pattern 1, `re.match(r'(.+?)\s+(\d+)\s+(.+?)\s+(\d+)', line)`:
two label/number pairs on one line.  Returns (key1, value1, key2, value2). -/
def patA : List Char → Option (List Char × List Char × List Char × List Char)
  | [] => none
  | c :: cs =>
    if c = '\n' then none
    else
      match patATail cs with
      | some g => some ([c], g)
      | none =>
        match patA cs with
        | some g => some (c :: g.1, g.2)
        | none => none

/-- Tail of pattern 2 after the lazy group: `\s\s+(\d+)` (one whitespace,
then a further forced whitespace run, then digits). -/
def patBTail (s : List Char) : Option (List Char) :=
  match s with
  | c :: rest =>
    if isSpaceC c then
      let p := takeWhileSplit isSpaceC rest
      if p.1.isEmpty then none
      else
        let q := takeWhileSplit Char.isDigit p.2
        if q.1.isEmpty then none else some q.1
    else none
  | [] => none

/-- Pattern 2, `re.match(r'(.+?)\s\s+(\d+)', line)`: one label/number pair
separated by at least two spaces.  Returns (key, value). -/
def patB : List Char → Option (List Char × List Char)
  | [] => none
  | c :: cs =>
    if c = '\n' then none
    else
      match patBTail cs with
      | some v => some ([c], v)
      | none =>
        match patB cs with
        | some g => some (c :: g.1, g.2)
        | none => none

/-- Greedy backtracking for the `\s+` of pattern 3 (`\s\s+(.+)`): consume
the whole whitespace run first, shrinking only while the final greedy
`(.+)` (which stops at a newline) would be empty. -/
def tryWsC (run after : List Char) : Nat → Option (List Char)
  | 0 => none
  | Nat.succ k =>
    let v := (run.drop (Nat.succ k) ++ after).takeWhile (fun c => c ≠ '\n')
    if v.isEmpty then tryWsC run after k else some v

/-- Tail of pattern 3 after the lazy group: `\s\s+(.+)`. -/
def patCTail (s : List Char) : Option (List Char) :=
  match s with
  | c :: rest =>
    if isSpaceC c then
      let p := takeWhileSplit isSpaceC rest
      if p.1.isEmpty then none
      else tryWsC p.1 p.2 p.1.length
    else none
  | [] => none

/-- Pattern 3, `re.match(r'(.+?)\s\s+(.+)', line)`: label/string fallback.
Returns (key, value text). -/
def patC : List Char → Option (List Char × List Char)
  | [] => none
  | c :: cs =>
    if c = '\n' then none
    else
      match patCTail cs with
      | some v => some ([c], v)
      | none =>
        match patC cs with
        | some g => some (c :: g.1, g.2)
        | none => none

/-- Python `dict` assignment `data[k] = v`: overwrite in place if the key
exists, else append (insertion order preserved). -/
def dictSet (d : List (String × ATIVal)) (k : String) (v : ATIVal) :
    List (String × ATIVal) :=
  if (d.lookup k).isSome then
    d.map (fun p => if p.1 = k then (k, v) else p)
  else d ++ [(k, v)]

/-- `ATI6Parser.get_mapping`. -/
def ati6_mapping : List (String × String) :=
  [("Chars sent", "chars_tx"),
   ("Chars Received", "chars_rx"),
   ("Chars lost", "chars_lost"),
   ("Octets sent", "octets_tx"),
   ("Octets Received", "octets_rx"),
   ("Blocks sent", "blocks_tx"),
   ("Blocks Received", "blocks_rx"),
   ("Blocks resent", "blocks_resent"),
   ("Retrains Requested", "retr_req"),
   ("Retrains Granted", "retr_granted"),
   ("Line Reversals", "line_reversals"),
   ("Blers", "blers"),
   ("Link Timeouts", "link_timeouts"),
   ("Link Naks", "link_naks"),
   ("Data Compression", "data_compression"),
   ("Equalization", "equalization"),
   ("Fallback", "fallback"),
   ("Protocol", "protocol"),
   ("Speed", "speed"),
   ("Last Call", "last_call"),
   ("Disconnect Reason is", "disconnect_reason")]

/-- `ATI11Parser.get_mapping`. -/
def ati11_mapping : List (String × String) :=
  [("Modulation", "modulation"),
   ("Carrier Freq ( Hz )", "carrier_freq"),
   ("Symbol Rate", "symbol_rate"),
   ("Trellis Code", "trellis_code"),
   ("Nonlinear Encoding", "nonlinear_encoding"),
   ("Precoding", "precoding"),
   ("Shaping", "shaping"),
   ("Preemphasis Index", "preemphasis_index"),
   ("Recv/Xmit Level (-dBm)", "recv_xmit_level"),
   ("SNR             ( dB )", "snr"),
   ("Near Echo Loss  ( dB )", "near_echo_loss"),
   ("Far Echo Loss   ( dB )", "far_echo_loss"),
   ("Roundtrip Delay (msec)", "roundtrip_delay"),
   ("Round Trip Delay (msec)", "roundtrip_delay"),
   ("Timing Offset   ( ppm)", "timing_offset"),
   ("Carrier Offset  ( ppm)", "carrier_offset"),
   ("RX Upshifts", "rx_upshifts"),
   ("RX Downshifts", "rx_downshifts"),
   ("TX Speedshifts", "tx_speedshifts"),
   ("x2 Status", "x2_status")]

/-- The per-line update of `ATIParserBase.parse_output`: skip the vendor
banner line, then try patterns 1-3 in order, first match wins; labels run
through `mapped_name` (the fixed mapping, after `strip()`), unknown labels
contribute nothing; digit captures are stored as `int`, the pattern-3
capture as a stripped string. -/
def parseOutputLine (mapping : List (String × String))
    (data : List (String × ATIVal)) (line : String) : List (String × ATIVal) :=
  if litB "USRobotics" line.data then data
  else
    match patA line.data with
    | some (k1, v1, k2, v2) =>
      let data1 :=
        match mapping.lookup (pyStrip (String.mk k1)) with
        | some n => dictSet data n (.int (natOfDigits v1))
        | none => data
      match mapping.lookup (pyStrip (String.mk k2)) with
      | some n => dictSet data1 n (.int (natOfDigits v2))
      | none => data1
    | none =>
      match patB line.data with
      | some (k, v) =>
        match mapping.lookup (pyStrip (String.mk k)) with
        | some n => dictSet data n (.int (natOfDigits v))
        | none => data
      | none =>
        match patC line.data with
        | some (k, v) =>
          match mapping.lookup (pyStrip (String.mk k)) with
          | some n => dictSet data n (.str (pyStrip (String.mk v)))
          | none => data
        | none => data

/-- `ATIParserBase.parse_output` over the accumulated raw block lines. -/
def parse_output (mapping : List (String × String)) (input_lines : List String) :
    List (String × ATIVal) :=
  input_lines.foldl (parseOutputLine mapping) []

/-! ## The state machine (`read_file`) -/

/-- Command-line arguments relevant to `read_file`. -/
structure Args where
  nullmodem : Bool
deriving DecidableEq, Repr

/-- The mutable locals of `read_file` while scanning. -/
structure RFState where
  counters : Counters
  record : Option CallRecord
  in_ati : Bool
  ati_lines : List String
  aborted : Bool
  repo : List CallRecord
deriving DecidableEq, Repr

/-- One iteration of the `for line in file` loop of `read_file`, with the
exact branch order of the source.  Accessing an attribute of `record` while
it is `None` raises `AttributeError`; a right-hand side is evaluated before
the attribute assignment, so a `parse_log_ts` failure raises first. -/
def processLine (args : Args) (st : RFState) (line : String) : Except PyErr RFState :=
  let cs := line.data
  match startQmodemSearch cs with
  | some tsl =>
    -- lines 457-480; parse_log_ts runs first (line 459); a crashed previous
    -- session is saved; CallRecord() bumps the attempt counter; line 472
    -- evaluates `ConnectionType.DIRECT if args.nullmodem else
    -- ConnectionType.MODEM`, and `ConnectionType.DIRECT` does not exist, so
    -- the null-modem path raises AttributeError.  (Line 479 re-parses the
    -- same capture with the same result.)
    match parse_log_ts (String.mk tsl) with
    | .error e => .error e
    | .ok ts_start =>
      let repo1 :=
        match st.record with
        | some r => if r.start_qmodem.isSome then st.repo ++ [r] else st.repo
        | none => st.repo
      let p := CallRecord.new st.counters
      if args.nullmodem then .error .attributeError
      else
        .ok { st with
              counters := p.1,
              record := some { p.2 with connect_type := some ConnectionType.MODEM,
                                        start_qmodem := some ts_start },
              aborted := false,
              repo := repo1 }
  | none =>
  match abortSearch cs with
  | some pr =>
    match parse_log_ts (String.mk pr.1) with
    | .error e => .error e
    | .ok t =>
      match st.record with
      | none => .error .attributeError
      | some r =>
        .ok { st with record := some { r with aborted_time := some t,
                                              abort_reason := some (String.mk pr.2) },
                      aborted := true }
  | none =>
  match startDialSearch cs with
  | some tsl =>
    match parse_log_ts (String.mk tsl) with
    | .error e => .error e
    | .ok t =>
      match st.record with
      | none => .error .attributeError
      | some r => .ok { st with record := some { r with start_dial := some t } }
  | none =>
  match connectedSearch cs with
  | some tsl =>
    match parse_log_ts (String.mk tsl) with
    | .error e => .error e
    | .ok t =>
      match st.record with
      | none => .error .attributeError
      | some r =>
        let p := CallRecord.mark_connected st.counters { r with connect_time := some t } true
        .ok { st with counters := p.1, record := some p.2 }
  | none =>
  match wcBannerSearch cs with
  | some g =>
    match st.record with
    | none => .error .attributeError
    | some r =>
      .ok { st with record := some { r with
              remote_connect_bps := some (natOfDigits g.1 : Int),
              remote_reliable := g.2.1.map String.mk,
              remote_ansi_detected := g.2.2.map String.mk } }
  | none =>
  match startDownloadSearch cs with
  | some tsl =>
    match parse_log_ts (String.mk tsl) with
    | .error e => .error e
    | .ok t =>
      match st.record with
      | none => .error .attributeError
      | some r => .ok { st with record := some { r with start_download := some t } }
  | none =>
  match endDownloadSearch cs with
  | some tsl =>
    match parse_log_ts (String.mk tsl) with
    | .error e => .error e
    | .ok t =>
      match st.record with
      | none => .error .attributeError
      | some r => .ok { st with record := some { r with end_download := some t } }
  | none =>
  match dlStatusSearch cs with
  | some g =>
    match st.record with
    | none => .error .attributeError
    | some r =>
      let p := CallRecord.mark_download_success st.counters r
                 (String.mk g.1 = "SUCCESSFUL!")
      match g.2 with
      | some cpsl =>
        match pyInt (String.mk (cpsl.filter (fun c => c ≠ ','))) with
        | .error e => .error e
        | .ok n =>
          .ok { st with counters := p.1, record := some { p.2 with download_cps := some n } }
      | none => .ok { st with counters := p.1, record := some p.2 }
  | none =>
  match endCallMatch cs with
  | some tsl =>
    match parse_log_ts (String.mk tsl) with
    | .error e => .error e
    | .ok t =>
      match st.record with
      | none => .error .attributeError
      | some r => .ok { st with record := some { r with end_call := some t } }
  | none =>
  if litB "### stats_ati6" cs then
    .ok { st with in_ati := true, ati_lines := [] }
  else
    -- the in-block append (line 558) runs before the block-end checks and
    -- has no `continue`, so an end-marker line is itself appended first
    let st1 := if st.in_ati then { st with ati_lines := st.ati_lines ++ [pyStrip line] } else st
    if litB "### end_stats_ati6" cs then
      match st1.record with
      | none => .error .attributeError
      | some r =>
        .ok { st1 with in_ati := false,
                       record := some { r with ati6 := some (parse_output ati6_mapping st1.ati_lines) },
                       ati_lines := [] }
    else
      -- the ati11 block-begin branch (line 571) has no `continue` either:
      -- control falls through to the remaining checks on the same line
      let st2 := if litB "### stats_ati11" cs then { st1 with in_ati := true, ati_lines := [] } else st1
      if litB "### end_stats_ati11" cs then
        match st2.record with
        | none => .error .attributeError
        | some r =>
          .ok { st2 with in_ati := false,
                         record := some { r with ati11 := some (parse_output ati11_mapping st2.ati_lines) },
                         ati_lines := [] }
      else
        match exitQmodemMatch cs with
        | some tsl =>
          match parse_log_ts (String.mk tsl) with
          | .error e => .error e
          | .ok t =>
            match st2.record with
            | none => .error .attributeError
            | some r =>
              .ok { st2 with record := none,
                             repo := st2.repo ++ [{ r with exit_qmodem := some t }] }
        | none => .ok st2

/-- The initial local state of `read_file`, over given process-wide
counters. -/
def initState (cs0 : Counters) : RFState :=
  { counters := cs0, record := none, in_ati := false, ati_lines := [],
    aborted := false, repo := [] }

/-- The scan loop of `read_file`. -/
def runLines (args : Args) : RFState → List String → Except PyErr RFState
  | st, [] => .ok st
  | st, l :: ls =>
    match processLine args st l with
    | .ok st1 => runLines args st1 ls
    | .error e => .error e

/-- `read_file` over the decoded lines of the input (the successful-open
path; file opening is I/O glue outside the model).  After the loop, a still
open record is saved (lines 599-601).  Returns the store contents together
with the final process-wide counters. -/
def read_file (args : Args) (cs0 : Counters) (lines : List String) :
    Except PyErr (List CallRecord × Counters) :=
  match runLines args (initState cs0) lines with
  | .error e => .error e
  | .ok st =>
    match st.record with
    | some r => .ok (st.repo ++ [r], st.counters)
    | none => .ok (st.repo, st.counters)

deriving instance DecidableEq for Except

/-! ## Lemmas about the embedded matchers -/

theorem litP_append (L r : List Char) : litP L (L ++ r) = some r := by
  induction L with
  | nil => rfl
  | cons c cs ih => simp [litP, ih]

theorem litP_mem {L s r : List Char} (h : litP L s = some r) :
    ∀ c ∈ L, c ∈ s := by
  induction L generalizing s with
  | nil => intro c hc; cases hc
  | cons a as ih =>
    cases s with
    | nil => cases h
    | cons x xs =>
      unfold litP at h
      split at h
      · intro c hc
        rcases List.mem_cons.mp hc with hc | hc
        · subst hc; simp_all
        · exact List.mem_cons_of_mem _ (ih h c hc)
      · cases h

theorem litP_mem_rest {L s r : List Char} (h : litP L s = some r) :
    ∀ c ∈ r, c ∈ s := by
  induction L generalizing s with
  | nil => cases h; intro c hc; exact hc
  | cons a as ih =>
    cases s with
    | nil => cases h
    | cons x xs =>
      unfold litP at h
      split at h
      · intro c hc; exact List.mem_cons_of_mem _ (ih h c hc)
      · cases h

theorem takeWhileSplit_fst_mem {p : Char → Bool} {s : List Char} :
    ∀ c ∈ (takeWhileSplit p s).1, c ∈ s := by
  induction s with
  | nil => intro c hc; cases hc
  | cons x xs ih =>
    unfold takeWhileSplit
    split
    · intro c hc
      rcases List.mem_cons.mp hc with hc | hc
      · subst hc; exact List.mem_cons_self _ _
      · exact List.mem_cons_of_mem _ (ih c hc)
    · intro c hc; cases hc

theorem takeWhileSplit_snd_mem {p : Char → Bool} {s : List Char} :
    ∀ c ∈ (takeWhileSplit p s).2, c ∈ s := by
  induction s with
  | nil => intro c hc; cases hc
  | cons x xs ih =>
    unfold takeWhileSplit
    split
    · intro c hc; exact List.mem_cons_of_mem _ (ih c hc)
    · intro c hc; exact hc

theorem matchTs_mem_rest {s ts r : List Char} (h : matchTs s = some (ts, r)) :
    ∀ c ∈ r, c ∈ s := by
  unfold matchTs at h
  split at h
  · split at h
    · injection h with h1
      injection h1 with h1 h2
      subst h2
      intro c hc
      simp_all [List.mem_cons]
    · cases h
  · cases h

/-- `re.search` fails everywhere if a character required by every match is
absent from the line. -/
theorem searchFrom_none_of_char {α : Type} (mat : List Char → Option α) (c : Char)
    (hm : ∀ s x, mat s = some x → c ∈ s) :
    ∀ line : List Char, c ∉ line → searchFrom mat line = none := by
  intro line
  induction line with
  | nil =>
    intro hn
    unfold searchFrom
    cases h : mat [] with
    | none => rfl
    | some x => exact absurd (hm [] x h) (by simp)
  | cons a l ih =>
    intro hn
    unfold searchFrom
    cases h : mat (a :: l) with
    | none => exact ih (fun hc => hn (List.mem_cons_of_mem _ hc))
    | some x => exact absurd (hm (a :: l) x h) hn

/-- `re.search` returns the match at position 0 when there is one
(leftmost-match rule). -/
theorem searchFrom_head {α : Type} {mat : List Char → Option α} {s : List Char} {x : α}
    (h : mat s = some x) : searchFrom mat s = some x := by
  cases s with
  | nil => unfold searchFrom; rw [h]
  | cons a l => unfold searchFrom; rw [h]

/-- The characters that can occur in a string accepted by `tsFields`. -/
def tsCharOK (c : Char) : Bool :=
  c.isDigit || c = '-' || c = ':' || c = ' '

theorem tsFields_shape {s : List Char} {x : Nat × Nat × Nat × Nat × Nat × Nat}
    (h : tsFields s = some x) :
    (∀ r : List Char, matchTs (s ++ r) = some (s, r)) ∧
    (∀ c ∈ s, tsCharOK c = true) ∧
    (∃ a rest, s = a :: rest ∧ a.isDigit = true) := by
  unfold tsFields at h
  split at h
  next a b c d e f g hh i j k l m n o p q =>
    split at h
    next hcond =>
      simp only [Bool.and_eq_true] at hcond
      obtain ⟨⟨⟨⟨⟨⟨⟨⟨⟨⟨⟨⟨⟨⟨⟨⟨h1, h2⟩, h3⟩, h4⟩, h5⟩, h6⟩, h7⟩, h8⟩, h9⟩, h10⟩,
        h11⟩, h12⟩, h13⟩, h14⟩, h15⟩, h16⟩, h17⟩ := hcond
      refine ⟨?_, ?_, ?_⟩
      · intro r
        simp only [List.cons_append, List.nil_append, matchTs]
        simp [h1, h2, h3, h4, h5, h6, h7, h8, h9, h10, h11, h12, h13, h14, h15, h16, h17]
      · intro ch hch
        simp only [List.mem_cons, List.not_mem_nil, or_false] at hch
        rcases hch with rfl | rfl | rfl | rfl | rfl | rfl | rfl | rfl | rfl |
          rfl | rfl | rfl | rfl | rfl | rfl | rfl | rfl <;> simp_all [tsCharOK]
      · exact ⟨a, _, rfl, h1⟩
    next => cases h
  next => cases h

theorem parse_ok_tsFields {t : String} {v : Int} (h : parse_log_ts t = .ok v) :
    ∃ x, tsFields t.data = some x := by
  unfold parse_log_ts at h
  split at h
  · cases h
  · next mo d yy hh mi ss heq => exact ⟨_, heq⟩

/-- For a string a valid timestamp was parsed from, `matchTs` consumes
exactly it. -/
theorem matchTs_parse {t : String} {v : Int} (h : parse_log_ts t = .ok v)
    (r : List Char) : matchTs (t.data ++ r) = some (t.data, r) := by
  obtain ⟨x, hx⟩ := parse_ok_tsFields h
  exact (tsFields_shape hx).1 r

/-- A character that is not a digit nor a timestamp separator does not
occur in a parsed timestamp string. -/
theorem ts_not_mem {t : String} {v : Int} (h : parse_log_ts t = .ok v)
    {c : Char} (hc : tsCharOK c = false) : c ∉ t.data := by
  obtain ⟨x, hx⟩ := parse_ok_tsFields h
  intro hmem
  rw [(tsFields_shape hx).2.1 c hmem] at hc
  cases hc

theorem ts_head_digit {t : String} {v : Int} (h : parse_log_ts t = .ok v) :
    ∃ a rest, t.data = a :: rest ∧ a.isDigit = true := by
  obtain ⟨x, hx⟩ := parse_ok_tsFields h
  exact (tsFields_shape hx).2.2

theorem digit_head_ne {a : Char} (h : a.isDigit = true) {c : Char}
    (hc : c.isDigit = false) : ¬(c = a) := by
  intro e
  rw [e, h] at hc
  cases hc

/-- Character membership for a marker line built from a concrete prefix, a
timestamp, and a concrete suffix. -/
theorem not_mem_parts {pre suf t : String} {c : Char} (h1 : c ∉ pre.data)
    (h2 : c ∉ t.data) (h3 : c ∉ suf.data) : c ∉ (pre ++ t ++ suf).data := by
  intro hc
  rw [show (pre ++ t ++ suf).data = pre.data ++ t.data ++ suf.data from rfl] at hc
  rcases List.mem_append.mp hc with hc | hc
  · rcases List.mem_append.mp hc with hc | hc
    · exact h1 hc
    · exact h2 hc
  · exact h3 hc

/-! Anchor-membership lemmas: each matcher can only succeed on a string
containing every character of its leading literal (and, for the
download-status pattern, the letter `U` of the status literal). -/

theorem tsMarkerAt_mem {lit s ts : List Char} (h : tsMarkerAt lit s = some ts) :
    ∀ c ∈ lit, c ∈ s := by
  unfold tsMarkerAt at h
  split at h
  next heq => exact litP_mem heq
  next => cases h

theorem startQmodemAt_mem {s ts : List Char} (h : startQmodemAt s = some ts) :
    ∀ c ∈ "#### start_qmodem ".data, c ∈ s := by
  unfold startQmodemAt at h
  split at h
  next => cases h
  next heq => exact litP_mem heq

theorem abortAt_mem {s : List Char} {x : List Char × List Char}
    (h : abortAt s = some x) : ∀ c ∈ "### aborting ".data, c ∈ s := by
  unfold abortAt at h
  split at h
  next => cases h
  next heq => exact litP_mem heq

theorem wcBannerAt_mem {s : List Char}
    {x : List Char × Option (List Char) × Option (List Char)}
    (h : wcBannerAt s = some x) : ∀ c ∈ "Connected at ".data, c ∈ s := by
  unfold wcBannerAt at h
  split at h
  next => cases h
  next heq => exact litP_mem heq

theorem dlStatusAt_mem {s : List Char} {x : List Char × Option (List Char)}
    (h : dlStatusAt s = some x) : 'U' ∈ s := by
  unfold dlStatusAt at h
  dsimp only at h
  split at h
  next => cases h
  next =>
    split at h
    next => cases h
    next =>
      split at h
      next r3 heq3 =>
        split at h
        next => cases h
        next =>
          have hsub : 'U' ∈ (takeWhileSplit isSpaceC r3).2 →
              'U' ∈ s := by
            intro hm
            have hm2 : 'U' ∈ r3 := takeWhileSplit_snd_mem _ hm
            have hm3 : 'U' ∈ (takeWhileSplit isSpaceC
                (takeWhileSplit (fun c => !isSpaceC c) s).2).2 := by
              rw [heq3]; exact List.mem_cons_of_mem _ hm2
            exact takeWhileSplit_snd_mem _
              (takeWhileSplit_snd_mem _ hm3)
          split at h
          next => cases h
          next g1 r5 heq5 =>
            split at heq5
            next hS => exact hsub (litP_mem hS 'U' (by decide))
            next =>
              split at heq5
              next r5b hU => exact hsub (litP_mem hU 'U' (by decide))
              next => cases heq5
      next => cases h

/-! ## Marker lines and their classification -/

def sqLine (t : String) : String := "#### start_qmodem " ++ t ++ "\n"
def sdLine (t : String) : String := "#### start_dial " ++ t ++ "\n"
def cnLine (t : String) : String := "#### connected " ++ t ++ "\n"
def sdlLine (t : String) : String := "### start_download " ++ t ++ "\n"
def edlLine (t : String) : String := "### end_download " ++ t ++ "\n"
def ecLine (t : String) : String := "#### end_call " ++ t ++ "\n"
def exLine (t : String) : String := "#### exit_qmodem " ++ t ++ "\n"
def abLine (t : String) : String := "### aborting " ++ t ++ " - NO CARRIER\n"

/-- A successful download-result line (representative text). -/
def resOkLine : String := "test.zip - SUCCESSFUL!  CPS = 3200\n"

/-- An unsuccessful download-result line with no CPS group. -/
def resFailLine : String := "test.zip - UNSUCCESSFUL.\n"

theorem kill_tsMarker {lit : List Char} {c : Char} (hc : c ∈ lit) {line : List Char}
    (hn : c ∉ line) : searchFrom (tsMarkerAt lit) line = none :=
  searchFrom_none_of_char _ c (fun _ _ h => tsMarkerAt_mem h c hc) line hn

theorem kill_startQmodem {c : Char} (hc : c ∈ "#### start_qmodem ".data)
    {line : List Char} (hn : c ∉ line) : startQmodemSearch line = none :=
  searchFrom_none_of_char _ c (fun _ _ h => startQmodemAt_mem h c hc) line hn

theorem kill_abort {c : Char} (hc : c ∈ "### aborting ".data)
    {line : List Char} (hn : c ∉ line) : abortSearch line = none :=
  searchFrom_none_of_char _ c (fun _ _ h => abortAt_mem h c hc) line hn

theorem kill_banner {c : Char} (hc : c ∈ "Connected at ".data)
    {line : List Char} (hn : c ∉ line) : wcBannerSearch line = none :=
  searchFrom_none_of_char _ c (fun _ _ h => wcBannerAt_mem h c hc) line hn

theorem kill_dl {line : List Char} (hn : 'U' ∉ line) : dlStatusSearch line = none :=
  searchFrom_none_of_char _ 'U' (fun _ _ h => dlStatusAt_mem h) line hn

theorem line_data (pre t suf : String) :
    (pre ++ t ++ suf).data = pre.data ++ (t.data ++ suf.data) := by
  show (pre.data ++ t.data) ++ suf.data = _
  rw [List.append_assoc]

theorem tsMarkerAt_append (lit : List Char) {t : String} {v : Int}
    (ht : parse_log_ts t = .ok v) (r : List Char) :
    tsMarkerAt lit (lit ++ (t.data ++ r)) = some t.data := by
  unfold tsMarkerAt
  rw [litP_append]
  dsimp only
  rw [matchTs_parse ht]
  rfl

theorem startQmodemAt_append {t : String} {v : Int} (ht : parse_log_ts t = .ok v)
    (r : List Char) :
    startQmodemAt ("#### start_qmodem ".data ++ (t.data ++ r)) = some t.data := by
  obtain ⟨a, rest, hd, hdig⟩ := ts_head_digit ht
  have hgrp : litP "testsize:".data (t.data ++ r) = none := by
    rw [hd]
    show litP ('t' :: "estsize:".data) (a :: (rest ++ r)) = none
    simp only [litP]
    rw [if_neg (digit_head_ne hdig (by decide))]
  unfold startQmodemAt
  rw [litP_append]
  simp [hgrp, matchTs_parse ht]

theorem abortAt_append {t : String} {v : Int} (ht : parse_log_ts t = .ok v) :
    abortAt ("### aborting ".data ++ (t.data ++ " - NO CARRIER\n".data)) =
      some (t.data, "NO CARRIER".data) := by
  unfold abortAt
  rw [litP_append]
  dsimp only
  rw [matchTs_parse ht]
  rfl

/-! ## How `processLine` acts on each marker line (abstract timestamps) -/

theorem processLine_sq (args : Args) {t : String} {v : Int}
    (ht : parse_log_ts t = .ok v) (st : RFState) :
    processLine args st (sqLine t) =
      if args.nullmodem then .error .attributeError
      else .ok { st with
        counters := { st.counters with count_start_dial := st.counters.count_start_dial + 1 },
        record := some { connect_type := some ConnectionType.MODEM, start_qmodem := some v },
        aborted := false,
        repo := match st.record with
                | some r => if r.start_qmodem.isSome then st.repo ++ [r] else st.repo
                | none => st.repo } := by
  have p1 : startQmodemSearch (sqLine t).data = some t.data := by
    unfold startQmodemSearch sqLine
    rw [line_data]
    exact searchFrom_head (startQmodemAt_append ht _)
  have hmk : String.mk t.data = t := rfl
  simp only [processLine, p1, hmk, ht, CallRecord.new]

theorem processLine_sd (args : Args) {t : String} {v : Int}
    (ht : parse_log_ts t = .ok v) (st : RFState) :
    processLine args st (sdLine t) =
      match st.record with
      | none => .error .attributeError
      | some r => .ok { st with record := some { r with start_dial := some v } } := by
  have k1 : startQmodemSearch (sdLine t).data = none :=
    kill_startQmodem (c := 'q') (by decide)
      (not_mem_parts (by decide) (ts_not_mem ht (by decide)) (by decide))
  have k2 : abortSearch (sdLine t).data = none :=
    kill_abort (c := 'b') (by decide)
      (not_mem_parts (by decide) (ts_not_mem ht (by decide)) (by decide))
  have p3 : startDialSearch (sdLine t).data = some t.data := by
    unfold startDialSearch sdLine
    rw [line_data]
    exact searchFrom_head (tsMarkerAt_append _ ht _)
  have hmk : String.mk t.data = t := rfl
  simp only [processLine, k1, k2, p3, hmk, ht]

theorem processLine_cn (args : Args) {t : String} {v : Int}
    (ht : parse_log_ts t = .ok v) (st : RFState) :
    processLine args st (cnLine t) =
      match st.record with
      | none => .error .attributeError
      | some r => .ok { st with
          counters := { st.counters with count_connected := st.counters.count_connected + 1 },
          record := some { r with connect_time := some v, connected := some true } } := by
  have k1 : startQmodemSearch (cnLine t).data = none :=
    kill_startQmodem (c := 'q') (by decide)
      (not_mem_parts (by decide) (ts_not_mem ht (by decide)) (by decide))
  have k2 : abortSearch (cnLine t).data = none :=
    kill_abort (c := 'b') (by decide)
      (not_mem_parts (by decide) (ts_not_mem ht (by decide)) (by decide))
  have k3 : startDialSearch (cnLine t).data = none :=
    kill_tsMarker (c := 'a') (by decide)
      (not_mem_parts (by decide) (ts_not_mem ht (by decide)) (by decide))
  have p4 : connectedSearch (cnLine t).data = some t.data := by
    unfold connectedSearch cnLine
    rw [line_data]
    exact searchFrom_head (tsMarkerAt_append _ ht _)
  have hmk : String.mk t.data = t := rfl
  simp only [processLine, k1, k2, k3, p4, hmk, ht, CallRecord.mark_connected, if_true]

theorem processLine_sdl (args : Args) {t : String} {v : Int}
    (ht : parse_log_ts t = .ok v) (st : RFState) :
    processLine args st (sdlLine t) =
      match st.record with
      | none => .error .attributeError
      | some r => .ok { st with record := some { r with start_download := some v } } := by
  have k1 : startQmodemSearch (sdlLine t).data = none :=
    kill_startQmodem (c := 'q') (by decide)
      (not_mem_parts (by decide) (ts_not_mem ht (by decide)) (by decide))
  have k2 : abortSearch (sdlLine t).data = none :=
    kill_abort (c := 'b') (by decide)
      (not_mem_parts (by decide) (ts_not_mem ht (by decide)) (by decide))
  have k3 : startDialSearch (sdlLine t).data = none :=
    kill_tsMarker (c := 'i') (by decide)
      (not_mem_parts (by decide) (ts_not_mem ht (by decide)) (by decide))
  have k4 : connectedSearch (sdlLine t).data = none :=
    kill_tsMarker (c := 'c') (by decide)
      (not_mem_parts (by decide) (ts_not_mem ht (by decide)) (by decide))
  have k5 : wcBannerSearch (sdlLine t).data = none :=
    kill_banner (c := 'C') (by decide)
      (not_mem_parts (by decide) (ts_not_mem ht (by decide)) (by decide))
  have p6 : startDownloadSearch (sdlLine t).data = some t.data := by
    unfold startDownloadSearch sdlLine
    rw [line_data]
    exact searchFrom_head (tsMarkerAt_append _ ht _)
  have hmk : String.mk t.data = t := rfl
  simp only [processLine, k1, k2, k3, k4, k5, p6, hmk, ht]

theorem processLine_edl (args : Args) {t : String} {v : Int}
    (ht : parse_log_ts t = .ok v) (st : RFState) :
    processLine args st (edlLine t) =
      match st.record with
      | none => .error .attributeError
      | some r => .ok { st with record := some { r with end_download := some v } } := by
  have k1 : startQmodemSearch (edlLine t).data = none :=
    kill_startQmodem (c := 'q') (by decide)
      (not_mem_parts (by decide) (ts_not_mem ht (by decide)) (by decide))
  have k2 : abortSearch (edlLine t).data = none :=
    kill_abort (c := 'b') (by decide)
      (not_mem_parts (by decide) (ts_not_mem ht (by decide)) (by decide))
  have k3 : startDialSearch (edlLine t).data = none :=
    kill_tsMarker (c := 'i') (by decide)
      (not_mem_parts (by decide) (ts_not_mem ht (by decide)) (by decide))
  have k4 : connectedSearch (edlLine t).data = none :=
    kill_tsMarker (c := 'c') (by decide)
      (not_mem_parts (by decide) (ts_not_mem ht (by decide)) (by decide))
  have k5 : wcBannerSearch (edlLine t).data = none :=
    kill_banner (c := 'C') (by decide)
      (not_mem_parts (by decide) (ts_not_mem ht (by decide)) (by decide))
  have k6 : startDownloadSearch (edlLine t).data = none :=
    kill_tsMarker (c := 'r') (by decide)
      (not_mem_parts (by decide) (ts_not_mem ht (by decide)) (by decide))
  have p7 : endDownloadSearch (edlLine t).data = some t.data := by
    unfold endDownloadSearch edlLine
    rw [line_data]
    exact searchFrom_head (tsMarkerAt_append _ ht _)
  have hmk : String.mk t.data = t := rfl
  simp only [processLine, k1, k2, k3, k4, k5, k6, p7, hmk, ht]

theorem processLine_ec (args : Args) {t : String} {v : Int}
    (ht : parse_log_ts t = .ok v) (st : RFState) :
    processLine args st (ecLine t) =
      match st.record with
      | none => .error .attributeError
      | some r => .ok { st with record := some { r with end_call := some v } } := by
  have k1 : startQmodemSearch (ecLine t).data = none :=
    kill_startQmodem (c := 'q') (by decide)
      (not_mem_parts (by decide) (ts_not_mem ht (by decide)) (by decide))
  have k2 : abortSearch (ecLine t).data = none :=
    kill_abort (c := 'b') (by decide)
      (not_mem_parts (by decide) (ts_not_mem ht (by decide)) (by decide))
  have k3 : startDialSearch (ecLine t).data = none :=
    kill_tsMarker (c := 'i') (by decide)
      (not_mem_parts (by decide) (ts_not_mem ht (by decide)) (by decide))
  have k4 : connectedSearch (ecLine t).data = none :=
    kill_tsMarker (c := 'o') (by decide)
      (not_mem_parts (by decide) (ts_not_mem ht (by decide)) (by decide))
  have k5 : wcBannerSearch (ecLine t).data = none :=
    kill_banner (c := 'C') (by decide)
      (not_mem_parts (by decide) (ts_not_mem ht (by decide)) (by decide))
  have k6 : startDownloadSearch (ecLine t).data = none :=
    kill_tsMarker (c := 'w') (by decide)
      (not_mem_parts (by decide) (ts_not_mem ht (by decide)) (by decide))
  have k7 : endDownloadSearch (ecLine t).data = none :=
    kill_tsMarker (c := 'w') (by decide)
      (not_mem_parts (by decide) (ts_not_mem ht (by decide)) (by decide))
  have k8 : dlStatusSearch (ecLine t).data = none :=
    kill_dl (not_mem_parts (by decide) (ts_not_mem ht (by decide)) (by decide))
  have p9 : endCallMatch (ecLine t).data = some t.data := by
    unfold endCallMatch ecLine
    rw [line_data]
    exact tsMarkerAt_append _ ht _
  have hmk : String.mk t.data = t := rfl
  simp only [processLine, k1, k2, k3, k4, k5, k6, k7, k8, p9, hmk, ht]

theorem processLine_ex (args : Args) {t : String} {v : Int}
    (ht : parse_log_ts t = .ok v) (st : RFState) (hin : st.in_ati = false) :
    processLine args st (exLine t) =
      match st.record with
      | none => .error .attributeError
      | some r => .ok { st with record := none,
                                repo := st.repo ++ [{ r with exit_qmodem := some v }] } := by
  have k1 : startQmodemSearch (exLine t).data = none :=
    kill_startQmodem (c := 'a') (by decide)
      (not_mem_parts (by decide) (ts_not_mem ht (by decide)) (by decide))
  have k2 : abortSearch (exLine t).data = none :=
    kill_abort (c := 'b') (by decide)
      (not_mem_parts (by decide) (ts_not_mem ht (by decide)) (by decide))
  have k3 : startDialSearch (exLine t).data = none :=
    kill_tsMarker (c := 'a') (by decide)
      (not_mem_parts (by decide) (ts_not_mem ht (by decide)) (by decide))
  have k4 : connectedSearch (exLine t).data = none :=
    kill_tsMarker (c := 'c') (by decide)
      (not_mem_parts (by decide) (ts_not_mem ht (by decide)) (by decide))
  have k5 : wcBannerSearch (exLine t).data = none :=
    kill_banner (c := 'C') (by decide)
      (not_mem_parts (by decide) (ts_not_mem ht (by decide)) (by decide))
  have k6 : startDownloadSearch (exLine t).data = none :=
    kill_tsMarker (c := 'a') (by decide)
      (not_mem_parts (by decide) (ts_not_mem ht (by decide)) (by decide))
  have k7 : endDownloadSearch (exLine t).data = none :=
    kill_tsMarker (c := 'a') (by decide)
      (not_mem_parts (by decide) (ts_not_mem ht (by decide)) (by decide))
  have k8 : dlStatusSearch (exLine t).data = none :=
    kill_dl (not_mem_parts (by decide) (ts_not_mem ht (by decide)) (by decide))
  have p9 : endCallMatch (exLine t).data = none := rfl
  have p10 : litB "### stats_ati6" (exLine t).data = false := rfl
  have p11 : litB "### end_stats_ati6" (exLine t).data = false := rfl
  have p12 : litB "### stats_ati11" (exLine t).data = false := rfl
  have p13 : litB "### end_stats_ati11" (exLine t).data = false := rfl
  have p14 : exitQmodemMatch (exLine t).data = some t.data := by
    unfold exitQmodemMatch exLine
    rw [line_data]
    exact tsMarkerAt_append _ ht _
  have hmk : String.mk t.data = t := rfl
  simp only [processLine, k1, k2, k3, k4, k5, k6, k7, k8, p9, p10, p11, p12, p13, p14,
             hmk, ht, hin, Bool.false_eq_true, if_false]

theorem processLine_ab (args : Args) {t : String} {v : Int}
    (ht : parse_log_ts t = .ok v) (st : RFState) :
    processLine args st (abLine t) =
      match st.record with
      | none => .error .attributeError
      | some r => .ok { st with
          record := some { r with aborted_time := some v, abort_reason := some "NO CARRIER" },
          aborted := true } := by
  have k1 : startQmodemSearch (abLine t).data = none :=
    kill_startQmodem (c := 'q') (by decide)
      (not_mem_parts (by decide) (ts_not_mem ht (by decide)) (by decide))
  have p2 : abortSearch (abLine t).data = some (t.data, "NO CARRIER".data) := by
    unfold abortSearch abLine
    rw [line_data]
    exact searchFrom_head (abortAt_append ht)
  have hmk : String.mk t.data = t := rfl
  have hmk2 : String.mk "NO CARRIER".data = "NO CARRIER" := rfl
  simp only [processLine, k1, p2, hmk, hmk2, ht]

theorem processLine_resOk (args : Args) (st : RFState) :
    processLine args st resOkLine =
      match st.record with
      | none => .error .attributeError
      | some r => .ok { st with
          counters := { st.counters with
            count_download_success := st.counters.count_download_success + 1 },
          record := some { r with download_success := some true,
                                  download_cps := some 3200 } } := by
  have k1 : startQmodemSearch resOkLine.data = none := by decide
  have k2 : abortSearch resOkLine.data = none := by decide
  have k3 : startDialSearch resOkLine.data = none := by decide
  have k4 : connectedSearch resOkLine.data = none := by decide
  have k5 : wcBannerSearch resOkLine.data = none := by decide
  have k6 : startDownloadSearch resOkLine.data = none := by decide
  have k7 : endDownloadSearch resOkLine.data = none := by decide
  have p8 : dlStatusSearch resOkLine.data = some ("SUCCESSFUL!".data, some "3200".data) := by
    decide
  have hcps : pyInt (String.mk ("3200".data.filter (fun c => c ≠ ','))) = .ok 3200 := by decide
  simp only [processLine, k1, k2, k3, k4, k5, k6, k7, p8, hcps,
             CallRecord.mark_download_success]
  cases st.record <;> simp

theorem processLine_resFail (args : Args) (st : RFState) :
    processLine args st resFailLine =
      match st.record with
      | none => .error .attributeError
      | some r => .ok { st with
          counters := { st.counters with
            count_download_failure := st.counters.count_download_failure + 1 },
          record := some { r with download_success := some false } } := by
  have k1 : startQmodemSearch resFailLine.data = none := by decide
  have k2 : abortSearch resFailLine.data = none := by decide
  have k3 : startDialSearch resFailLine.data = none := by decide
  have k4 : connectedSearch resFailLine.data = none := by decide
  have k5 : wcBannerSearch resFailLine.data = none := by decide
  have k6 : startDownloadSearch resFailLine.data = none := by decide
  have k7 : endDownloadSearch resFailLine.data = none := by decide
  have p8 : dlStatusSearch resFailLine.data = some ("UNSUCCESSFUL.".data, none) := by decide
  simp only [processLine, k1, k2, k3, k4, k5, k6, k7, p8,
             CallRecord.mark_download_success]
  cases st.record <;> simp

/-! ## Claim C1 -/

/-- C1: For every well-formed log containing exactly one complete call
sequence (start_qmodem, start_dial, connected, start_download,
end_download, a SUCCESSFUL download-result line, end_call, exit_qmodem,
each with a valid timestamp and timestamps non-decreasing), ingestion
yields a store with exactly one record, with `connected = true`,
`download_success = true`, and handshake, download and call durations all
present and non-negative. -/
theorem c1_single_complete_call (a b c d e f g : String) (va vb vc vd ve vf vg : Int)
    (ha : parse_log_ts a = .ok va) (hb : parse_log_ts b = .ok vb)
    (hc : parse_log_ts c = .ok vc) (hd : parse_log_ts d = .ok vd)
    (he : parse_log_ts e = .ok ve) (hf : parse_log_ts f = .ok vf)
    (hg : parse_log_ts g = .ok vg)
    (_m1 : va ≤ vb) (m2 : vb ≤ vc) (m3 : vc ≤ vd) (m4 : vd ≤ ve)
    (m5 : ve ≤ vf) (_m6 : vf ≤ vg) :
    ∃ r : CallRecord,
      read_file ⟨false⟩ {}
        [sqLine a, sdLine b, cnLine c, sdlLine d, edlLine e, resOkLine, ecLine f, exLine g] =
        .ok ([r], { count_start_dial := 1, count_connected := 1,
                    count_download_failure := 0, count_download_success := 1 }) ∧
      r.connected = some true ∧
      r.download_success = some true ∧
      r.handshake_duration = .ok (some (vc - vb)) ∧ 0 ≤ vc - vb ∧
      r.download_duration = .ok (some (ve - vd)) ∧ 0 ≤ ve - vd ∧
      r.call_duration = .ok (some (vf - vc)) ∧ 0 ≤ vf - vc := by
  refine ⟨{ connected := some true, start_qmodem := some va, start_dial := some vb,
            connect_time := some vc, start_download := some vd, end_download := some ve,
            download_success := some true, end_call := some vf, exit_qmodem := some vg,
            connect_type := some ConnectionType.MODEM, download_cps := some 3200 },
          ?_, rfl, rfl, ?_, ?_, ?_, ?_, ?_, ?_⟩
  · simp only [read_file, runLines, processLine_sq _ ha, processLine_sd _ hb,
               processLine_cn _ hc, processLine_sdl _ hd, processLine_edl _ he,
               processLine_resOk, processLine_ec _ hf, processLine_ex _ hg,
               initState, Bool.false_eq_true, if_false]
    rfl
  · simp [CallRecord.handshake_duration, subTs]
  · omega
  · simp [CallRecord.download_duration, subTs]
  · omega
  · simp [CallRecord.call_duration, subTs]
  · omega

/-- Witness for C1 at a concrete single-call log. -/
theorem c1_single_complete_call_witness :
    (parse_log_ts "01-01-70 00:00:01" = .ok 1 ∧ (1 : Int) ≤ 2) ∧
    (∃ r : CallRecord,
      read_file ⟨false⟩ {}
        [sqLine "01-01-70 00:00:01", sdLine "01-01-70 00:00:02",
         cnLine "01-01-70 00:00:03", sdlLine "01-01-70 00:00:04",
         edlLine "01-01-70 00:00:05", resOkLine,
         ecLine "01-01-70 00:00:06", exLine "01-01-70 00:00:07"] =
        .ok ([r], { count_start_dial := 1, count_connected := 1,
                    count_download_failure := 0, count_download_success := 1 }) ∧
      r.connected = some true ∧
      r.download_success = some true ∧
      r.handshake_duration = .ok (some (3 - 2)) ∧ (0 : Int) ≤ 3 - 2 ∧
      r.download_duration = .ok (some (5 - 4)) ∧ (0 : Int) ≤ 5 - 4 ∧
      r.call_duration = .ok (some (6 - 3)) ∧ (0 : Int) ≤ 6 - 3) :=
  ⟨⟨by decide, by decide⟩,
   c1_single_complete_call "01-01-70 00:00:01" "01-01-70 00:00:02" "01-01-70 00:00:03"
     "01-01-70 00:00:04" "01-01-70 00:00:05" "01-01-70 00:00:06" "01-01-70 00:00:07"
     1 2 3 4 5 6 7
     (by decide) (by decide) (by decide) (by decide) (by decide) (by decide) (by decide)
     (by decide) (by decide) (by decide) (by decide) (by decide) (by decide)⟩

/-! ## Claim C2 -/

/-- C2: a stray `#### connected` marker with no open record does NOT get
ignored: `read_file` evaluates `record.connect_time = ...` with
`record = None` and the run dies with `AttributeError`; the well-formed
call sequence later in the same log is never ingested and no store is
produced.  (This refutes the claim that the event is ignored and the run
completes.) -/
theorem c2_orphan_connected_crashes :
    read_file ⟨false⟩ {}
      ["#### connected 01-01-70 00:00:01\n",
       sqLine "01-01-70 00:00:02", sdLine "01-01-70 00:00:03",
       cnLine "01-01-70 00:00:04", sdlLine "01-01-70 00:00:05",
       edlLine "01-01-70 00:00:06", resOkLine,
       ecLine "01-01-70 00:00:07", exLine "01-01-70 00:00:08"] =
      .error .attributeError := by decide

/-! ## Claim C3 -/

/-- C3 counterexample: with both download counters zero (no downloads in
the run), `report_aggregates` computes a success percentage of `100.0`,
not the `0%` the claim states. -/
theorem c3_counterexample_no_downloads_pct_100 :
    download_success_pct { count_start_dial := 0, count_connected := 0,
                           count_download_failure := 0, count_download_success := 0 } = 100 ∧
    download_success_pct { count_start_dial := 0, count_connected := 0,
                           count_download_failure := 0, count_download_success := 0 } ≠ 0 := by
  constructor
  · rfl
  · decide

/-- C3 amended: the download success percentage is `100.0` (not 0%)
whenever the download-failure counter is zero — in particular when no
downloads occurred at all — and the division is evaluated only when the
failure counter is positive, so its denominator is nonzero (never a
division by zero). -/
theorem c3_amended_pct (cs : Counters) :
    (cs.count_download_failure = 0 → download_success_pct cs = 100) ∧
    (cs.count_download_failure ≠ 0 →
      download_success_pct cs =
        ((cs.count_download_success : Rat) /
         ((cs.count_download_success : Rat) + (cs.count_download_failure : Rat))) * 100 ∧
      ((cs.count_download_success : Rat) + (cs.count_download_failure : Rat)) ≠ 0) := by
  constructor
  · intro h
    simp [download_success_pct, h]
  · intro h
    constructor
    · simp [download_success_pct, h]
    · have h1 : (1 : Rat) ≤ (cs.count_download_failure : Rat) := by
        exact_mod_cast Nat.one_le_iff_ne_zero.mpr h
      have h2 : (0 : Rat) ≤ (cs.count_download_success : Rat) := by positivity
      intro hz
      nlinarith

/-- Witness for the amended C3 at concrete counters. -/
theorem c3_amended_pct_witness :
    download_success_pct { count_start_dial := 0, count_connected := 0,
                           count_download_failure := 0, count_download_success := 0 } = 100 ∧
    download_success_pct { count_start_dial := 0, count_connected := 0,
                           count_download_failure := 1, count_download_success := 3 } =
      (((3 : Nat) : Rat) / (((3 : Nat) : Rat) + ((1 : Nat) : Rat))) * 100 :=
  ⟨(c3_amended_pct _).1 rfl, ((c3_amended_pct _).2 (by decide)).1⟩

/-! ## Claim C4 -/

/-- C4: selecting the direct-serial (null-modem) flag does NOT succeed:
on the first `start_qmodem` marker, line 472 evaluates
`ConnectionType.DIRECT`, which is not a member of the enum (only
`DIRECTSERIAL` is), so ingestion dies with `AttributeError` and no record
with connection kind DIRECT_SERIAL is ever created. -/
theorem c4_nullmodem_crashes :
    read_file ⟨true⟩ {} [sqLine "01-01-70 00:00:01"] = .error .attributeError := by decide

/-- C4 context: the data-model half of the claim does hold in isolation —
`handshake_duration` returns zero for a record whose connection kind is
DIRECT_SERIAL — but `read_file` can never produce such a record. -/
theorem c4_handshake_zero_for_directserial (r : CallRecord)
    (h : r.connect_type = some ConnectionType.DIRECTSERIAL) :
    r.handshake_duration = .ok (some 0) := by
  simp [CallRecord.handshake_duration, h]

/-- Witness for `c4_handshake_zero_for_directserial`. -/
theorem c4_handshake_zero_for_directserial_witness :
    ({ connect_type := some ConnectionType.DIRECTSERIAL } : CallRecord).handshake_duration =
      .ok (some 0) :=
  c4_handshake_zero_for_directserial _ rfl

/-! ## Claim C5 -/

/-- C5: a WelcomeBanner line does NOT set boolean flags: with an open
record, processing a banner line with both fragments present leaves the
declared `remote_ansi` field `None` forever (the code assigns the
dynamically-created attribute `remote_ansi_detected` instead) and stores
the raw matched fragment text (a string, not a boolean) in
`remote_reliable` and `remote_ansi_detected`. -/
theorem c5_banner_fields_bug :
    read_file ⟨false⟩ {}
      [sqLine "01-01-70 00:00:01",
       "Connected at 28800 bps.Reliable connection.  ANSI detected.\n"] =
      .ok ([{ start_qmodem := some 1, connect_type := some ConnectionType.MODEM,
              remote_connect_bps := some 28800,
              remote_reliable := some "Reliable connection.  ",
              remote_ansi := none,
              remote_ansi_detected := some "ANSI detected." }],
           { count_start_dial := 1, count_connected := 0,
             count_download_failure := 0, count_download_success := 0 }) := by
  decide

/-! ## Claim C7 -/

/-- C7: when the input ends while a record is still open, the end-of-input
save (lines 599-601) finalizes it: the record is present in the final
store. -/
theorem c7_end_of_input_finalize (args : Args) (cs0 : Counters) (lines : List String)
    (st : RFState) (r : CallRecord)
    (h : runLines args (initState cs0) lines = .ok st) (hr : st.record = some r) :
    read_file args cs0 lines = .ok (st.repo ++ [r], st.counters) := by
  unfold read_file
  rw [h]
  dsimp only
  rw [hr]

/-- Witness for C7: a log ending immediately after
`### end_download` and an `UNSUCCESSFUL.` result line, with no
`exit_qmodem`; the open record is still stored. -/
theorem c7_end_of_input_finalize_witness :
    runLines ⟨false⟩ (initState {})
      [sqLine "01-01-70 00:00:01", sdLine "01-01-70 00:00:02",
       cnLine "01-01-70 00:00:03", sdlLine "01-01-70 00:00:04",
       edlLine "01-01-70 00:00:05", resFailLine] =
      .ok { counters := { count_start_dial := 1, count_connected := 1,
                          count_download_failure := 1, count_download_success := 0 },
            record := some { connected := some true, start_qmodem := some 1,
                             start_dial := some 2, connect_time := some 3,
                             start_download := some 4, end_download := some 5,
                             download_success := some false,
                             connect_type := some ConnectionType.MODEM },
            in_ati := false, ati_lines := [], aborted := false, repo := [] } ∧
    read_file ⟨false⟩ {}
      [sqLine "01-01-70 00:00:01", sdLine "01-01-70 00:00:02",
       cnLine "01-01-70 00:00:03", sdlLine "01-01-70 00:00:04",
       edlLine "01-01-70 00:00:05", resFailLine] =
      .ok (([] : List CallRecord) ++
             [{ connected := some true, start_qmodem := some 1,
                start_dial := some 2, connect_time := some 3,
                start_download := some 4, end_download := some 5,
                download_success := some false,
                connect_type := some ConnectionType.MODEM }],
           { count_start_dial := 1, count_connected := 1,
             count_download_failure := 1, count_download_success := 0 }) :=
  ⟨by decide,
   c7_end_of_input_finalize ⟨false⟩ {}
     [sqLine "01-01-70 00:00:01", sdLine "01-01-70 00:00:02",
      cnLine "01-01-70 00:00:03", sdlLine "01-01-70 00:00:04",
      edlLine "01-01-70 00:00:05", resFailLine]
     { counters := { count_start_dial := 1, count_connected := 1,
                     count_download_failure := 1, count_download_success := 0 },
       record := some { connected := some true, start_qmodem := some 1,
                        start_dial := some 2, connect_time := some 3,
                        start_download := some 4, end_download := some 5,
                        download_success := some false,
                        connect_type := some ConnectionType.MODEM },
       in_ati := false, ati_lines := [], aborted := false, repo := [] }
     { connected := some true, start_qmodem := some 1,
       start_dial := some 2, connect_time := some 3,
       start_download := some 4, end_download := some 5,
       download_success := some false,
       connect_type := some ConnectionType.MODEM }
     (by decide) rfl⟩

/-! ## Claim C8 -/

/-- C8: with an open record, a line classified as a DownloadResult with
status literal `UNSUCCESSFUL.` and no CPS group marks
`download_success = false`, bumps only the failure counter, and leaves
`download_cps` untouched — absent (`none`), never zero. -/
theorem c8_unsuccessful_no_cps (args : Args) (st : RFState) (r : CallRecord) (line : String)
    (hrec : st.record = some r) (hcps : r.download_cps = none)
    (h1 : startQmodemSearch line.data = none)
    (h2 : abortSearch line.data = none)
    (h3 : startDialSearch line.data = none)
    (h4 : connectedSearch line.data = none)
    (h5 : wcBannerSearch line.data = none)
    (h6 : startDownloadSearch line.data = none)
    (h7 : endDownloadSearch line.data = none)
    (h8 : dlStatusSearch line.data = some ("UNSUCCESSFUL.".data, none)) :
    processLine args st line =
      .ok { st with
        counters := { st.counters with
          count_download_failure := st.counters.count_download_failure + 1 },
        record := some { r with download_success := some false } } ∧
    ({ r with download_success := some false } : CallRecord).download_cps = none := by
  constructor
  · simp only [processLine, h1, h2, h3, h4, h5, h6, h7, h8, hrec,
               CallRecord.mark_download_success]
    simp
  · simpa using hcps

/-- Witness for C8 at a concrete open record and result line. -/
theorem c8_unsuccessful_no_cps_witness :
    processLine ⟨false⟩
      { counters := { count_start_dial := 1, count_connected := 0,
                      count_download_failure := 0, count_download_success := 0 },
        record := some { start_qmodem := some 1 },
        in_ati := false, ati_lines := [], aborted := false, repo := [] }
      resFailLine =
      .ok { counters := { count_start_dial := 1, count_connected := 0,
                          count_download_failure := 1, count_download_success := 0 },
            record := some { start_qmodem := some 1, download_success := some false },
            in_ati := false, ati_lines := [], aborted := false, repo := [] } ∧
    ({ ({ start_qmodem := some 1 } : CallRecord) with
        download_success := some false } : CallRecord).download_cps = none :=
  c8_unsuccessful_no_cps ⟨false⟩
    { counters := { count_start_dial := 1, count_connected := 0,
                    count_download_failure := 0, count_download_success := 0 },
      record := some { start_qmodem := some 1 },
      in_ati := false, ati_lines := [], aborted := false, repo := [] }
    { start_qmodem := some 1 } resFailLine rfl rfl
    (by decide) (by decide) (by decide) (by decide)
    (by decide) (by decide) (by decide) (by decide)

/-! ## Claim C10 -/

/-- C10: a record with `aborted_time` set but no `connect_time` is
reachable from the public ingestion interface (a start_qmodem marker
followed by an aborting marker with no connected marker); on it,
`termination_reason` and `call_duration` both subtract from the missing
`connect_time` and raise `TypeError` instead of returning a
classification or `None`. -/
theorem c10_abort_without_connect (t1 t2 : String) (v1 v2 : Int)
    (h1 : parse_log_ts t1 = .ok v1) (h2 : parse_log_ts t2 = .ok v2) :
    ∃ r : CallRecord,
      read_file ⟨false⟩ {} [sqLine t1, abLine t2] =
        .ok ([r], { count_start_dial := 1, count_connected := 0,
                    count_download_failure := 0, count_download_success := 0 }) ∧
      r.aborted_time = some v2 ∧ r.connect_time = none ∧
      r.termination_reason = .error .typeError ∧
      r.call_duration = .error .typeError := by
  refine ⟨{ start_qmodem := some v1, aborted_time := some v2,
            abort_reason := some "NO CARRIER",
            connect_type := some ConnectionType.MODEM },
          ?_, rfl, rfl, ?_, ?_⟩
  · simp only [read_file, runLines, processLine_sq _ h1, processLine_ab _ h2,
               initState, Bool.false_eq_true, if_false]
    rfl
  · simp [CallRecord.termination_reason, subTs]
  · simp [CallRecord.call_duration, subTs]

/-- Witness for C10 at concrete timestamps. -/
theorem c10_abort_without_connect_witness :
    (parse_log_ts "01-01-70 00:00:01" = .ok 1 ∧ parse_log_ts "01-01-70 00:00:05" = .ok 5) ∧
    (∃ r : CallRecord,
      read_file ⟨false⟩ {} [sqLine "01-01-70 00:00:01", abLine "01-01-70 00:00:05"] =
        .ok ([r], { count_start_dial := 1, count_connected := 0,
                    count_download_failure := 0, count_download_success := 0 }) ∧
      r.aborted_time = some 5 ∧ r.connect_time = none ∧
      r.termination_reason = .error .typeError ∧
      r.call_duration = .error .typeError) :=
  ⟨⟨by decide, by decide⟩,
   c10_abort_without_connect "01-01-70 00:00:01" "01-01-70 00:00:05" 1 5
     (by decide) (by decide)⟩

/-! ## Claim C6 -/

/-- A line the scanner classifies as a `start_qmodem` marker. -/
def classifiesStartQmodem (l : String) : Bool := (startQmodemSearch l.data).isSome

/-- A line whose first matching action in the scanner's check order is the
`connected` marker. -/
def classifiesConnected (l : String) : Bool :=
  (startQmodemSearch l.data).isNone && (abortSearch l.data).isNone &&
  (startDialSearch l.data).isNone && (connectedSearch l.data).isSome

/-- Per-line accounting of the attempt and connected counters. -/
theorem processLine_counters (args : Args) (st : RFState) (line : String) (st' : RFState)
    (h : processLine args st line = .ok st') :
    st'.counters.count_start_dial =
      st.counters.count_start_dial + (if classifiesStartQmodem line then 1 else 0) ∧
    st'.counters.count_connected =
      st.counters.count_connected + (if classifiesConnected line then 1 else 0) := by
  unfold processLine at h
  dsimp only at h
  repeat' (split at h)
  all_goals (try (cases h))
  all_goals (simp_all [classifiesStartQmodem, classifiesConnected, CallRecord.new,
    CallRecord.mark_connected, CallRecord.mark_download_success])
  all_goals (split <;> simp_all)

/-- Whole-scan accounting of the attempt and connected counters. -/
theorem runLines_counters (args : Args) (lines : List String) :
    ∀ st st' : RFState, runLines args st lines = .ok st' →
    st'.counters.count_start_dial =
      st.counters.count_start_dial + lines.countP classifiesStartQmodem ∧
    st'.counters.count_connected =
      st.counters.count_connected + lines.countP classifiesConnected := by
  induction lines with
  | nil =>
    intro st st' h
    cases h
    simp
  | cons l ls ih =>
    intro st st' h
    unfold runLines at h
    split at h
    next st1 heq =>
      obtain ⟨e1, e2⟩ := processLine_counters _ _ _ _ heq
      obtain ⟨f1, f2⟩ := ih st1 st' h
      constructor
      · rw [f1, e1]
        cases hcl : classifiesStartQmodem l <;> simp [hcl, List.countP_cons]
        all_goals omega
      · rw [f2, e2]
        cases hcl : classifiesConnected l <;> simp [hcl, List.countP_cons]
        all_goals omega
    next => cases h

/-- C6 amended: after an ingestion run that completes (from zeroed
process-wide counters), the attempt counter equals the number of lines
classified as `start_qmodem` markers, and the connected counter equals the
number of lines classified as `connected` markers — which is NOT bounded by
the attempt counter in general, since one record may receive several
connected markers.  The success percentage is 0.0 whenever the attempt
counter is 0 (the division is guarded). -/
theorem c6_amended_counters (args : Args) (lines : List String)
    (store : List CallRecord) (cs : Counters)
    (h : read_file args {} lines = .ok (store, cs)) :
    cs.count_start_dial = lines.countP classifiesStartQmodem ∧
    cs.count_connected = lines.countP classifiesConnected ∧
    (∀ cs2 : Counters, cs2.count_start_dial = 0 → connect_success_percent cs2 = 0) := by
  have hpct : ∀ cs2 : Counters, cs2.count_start_dial = 0 → connect_success_percent cs2 = 0 := by
    intro cs2 h0
    simp [connect_success_percent, h0]
  unfold read_file at h
  split at h
  next => cases h
  next stf heq =>
    obtain ⟨f1, f2⟩ := runLines_counters args lines (initState {}) stf heq
    split at h
    next =>
      injection h with h1
      injection h1 with h1 h2
      subst h2
      simp only [initState] at f1 f2
      exact ⟨by simpa using f1, by simpa using f2, hpct⟩
    next =>
      injection h with h1
      injection h1 with h1 h2
      subst h2
      simp only [initState] at f1 f2
      exact ⟨by simpa using f1, by simpa using f2, hpct⟩

/-- C6 counterexample: a log with one `start_qmodem` marker and two
`connected` markers completes with attempt counter 1 but connected counter
2 — the claimed invariant `connected ≤ attempts` fails on the code. -/
theorem c6_counterexample_connected_exceeds_attempts :
    read_file ⟨false⟩ {}
      [sqLine "01-01-70 00:00:01", cnLine "01-01-70 00:00:02", cnLine "01-01-70 00:00:03"] =
      .ok ([{ connected := some true, start_qmodem := some 1, connect_time := some 3,
              connect_type := some ConnectionType.MODEM }],
           { count_start_dial := 1, count_connected := 2,
             count_download_failure := 0, count_download_success := 0 }) ∧
    ¬((2 : Nat) ≤ 1) := by
  constructor
  · decide
  · decide

/-- Witness for the amended C6 at a concrete log. -/
theorem c6_amended_counters_witness :
    ({ count_start_dial := 1, count_connected := 2,
       count_download_failure := 0, count_download_success := 0 } : Counters).count_start_dial =
      ([sqLine "01-01-70 00:00:01", cnLine "01-01-70 00:00:02",
        cnLine "01-01-70 00:00:03"].countP classifiesStartQmodem) ∧
    ({ count_start_dial := 1, count_connected := 2,
       count_download_failure := 0, count_download_success := 0 } : Counters).count_connected =
      ([sqLine "01-01-70 00:00:01", cnLine "01-01-70 00:00:02",
        cnLine "01-01-70 00:00:03"].countP classifiesConnected) ∧
    (∀ cs2 : Counters, cs2.count_start_dial = 0 → connect_success_percent cs2 = 0) :=
  c6_amended_counters ⟨false⟩
    [sqLine "01-01-70 00:00:01", cnLine "01-01-70 00:00:02", cnLine "01-01-70 00:00:03"]
    [{ connected := some true, start_qmodem := some 1, connect_time := some 3,
       connect_type := some ConnectionType.MODEM }]
    { count_start_dial := 1, count_connected := 2,
      count_download_failure := 0, count_download_success := 0 }
    (by decide)

/-! ## Claim C9 -/

theorem lookup_pair_mem {α β : Type} [BEq α] [LawfulBEq α] {l : List (α × β)} {k : α} {v : β}
    (h : l.lookup k = some v) : (k, v) ∈ l := by
  induction l with
  | nil => cases h
  | cons a t ih =>
    unfold List.lookup at h
    split at h
    next heq =>
      injection h with h1
      have hk : k = a.1 := eq_of_beq heq
      subst hk
      subst h1
      exact List.mem_cons_self _ _
    next => exact List.mem_cons_of_mem _ (ih h)

theorem lookup_val_mem_snd {α β : Type} [BEq α] [LawfulBEq α] {l : List (α × β)} {k : α} {v : β}
    (h : l.lookup k = some v) : v ∈ l.map Prod.snd :=
  List.mem_map.mpr ⟨(k, v), lookup_pair_mem h, rfl⟩

theorem dictSet_mem {d : List (String × ATIVal)} {k : String} {v : ATIVal}
    {p : String × ATIVal} (h : p ∈ dictSet d k v) : p ∈ d ∨ p = (k, v) := by
  unfold dictSet at h
  split at h
  · obtain ⟨q, hq, he⟩ := List.mem_map.mp h
    by_cases hqk : q.1 = k
    · right
      rw [← he, if_pos hqk]
    · left
      rw [← he, if_neg hqk]
      exact hq
  · rcases List.mem_append.mp h with h | h
    · exact Or.inl h
    · exact Or.inr (by simpa using h)

theorem dropWhile_head_false {p : Char → Bool} {l : List Char} {c : Char} {rest : List Char}
    (h : l.dropWhile p = c :: rest) : p c = false := by
  induction l with
  | nil => cases h
  | cons x xs ih =>
    rw [List.dropWhile_cons] at h
    split at h
    · exact ih h
    · next hx =>
      injection h with h1 _
      subst h1
      simpa using hx

theorem dropWhile_dropWhile (p : Char → Bool) (l : List Char) :
    (l.dropWhile p).dropWhile p = l.dropWhile p := by
  cases h : l.dropWhile p with
  | nil => rfl
  | cons c rest =>
    rw [List.dropWhile_cons, if_neg]
    simp [dropWhile_head_false h]

theorem strip_no_leading (p : Char → Bool) (l : List Char) :
    (((l.dropWhile p).reverse.dropWhile p).reverse).dropWhile p =
      ((l.dropWhile p).reverse.dropWhile p).reverse := by
  obtain ⟨u, hu⟩ := List.dropWhile_suffix (l := (l.dropWhile p).reverse) p
  have hm : ((l.dropWhile p).reverse.dropWhile p).reverse ++ u.reverse = l.dropWhile p := by
    have h2 := congrArg List.reverse hu
    simpa [List.reverse_append] using h2
  cases hn : ((l.dropWhile p).reverse.dropWhile p).reverse with
  | nil => rfl
  | cons c rest =>
    have hmc : l.dropWhile p = c :: (rest ++ u.reverse) := by
      rw [← hm, hn]
      rfl
    rw [List.dropWhile_cons, if_neg]
    simp [dropWhile_head_false hmc]

theorem stripList_idem (p : Char → Bool) (l : List Char) :
    (((((((l.dropWhile p).reverse.dropWhile p).reverse).dropWhile p).reverse).dropWhile p).reverse) =
      ((l.dropWhile p).reverse.dropWhile p).reverse := by
  rw [strip_no_leading, List.reverse_reverse]
  exact strip_no_leading p l

/-- Python `strip()` is idempotent: a stripped string is already
trimmed. -/
theorem pyStrip_idem (s : String) : pyStrip (pyStrip s) = pyStrip s :=
  congrArg String.mk (stripList_idem isSpaceC s.data)

/-- The invariant of a parsed diagnostic-block mapping: every value is an
integer or a trimmed string, and every key comes from the fixed mapping's
identifiers. -/
def goodEntry (mapping : List (String × String)) (p : String × ATIVal) : Prop :=
  ((∃ n, p.2 = ATIVal.int n) ∨ (∃ s, p.2 = ATIVal.str s ∧ pyStrip s = s)) ∧
  p.1 ∈ mapping.map Prod.snd

theorem dictSet_good {mapping : List (String × String)} {data : List (String × ATIVal)}
    {k : String} {v : ATIVal} (hd : ∀ p ∈ data, goodEntry mapping p)
    (hk : k ∈ mapping.map Prod.snd)
    (hv : (∃ n, v = ATIVal.int n) ∨ (∃ s, v = ATIVal.str s ∧ pyStrip s = s)) :
    ∀ p ∈ dictSet data k v, goodEntry mapping p := by
  intro p hp
  rcases dictSet_mem hp with hp | rfl
  · exact hd p hp
  · exact ⟨hv, hk⟩

theorem parseOutputLine_good (mapping : List (String × String))
    (data : List (String × ATIVal)) (line : String)
    (hd : ∀ p ∈ data, goodEntry mapping p) :
    ∀ p ∈ parseOutputLine mapping data line, goodEntry mapping p := by
  intro p hp
  unfold parseOutputLine at hp
  split at hp
  · exact hd p hp
  · split at hp
    next k1 v1 k2 v2 heq =>
      dsimp only at hp
      rcases hl1 : mapping.lookup (pyStrip (String.mk k1)) with _ | n1 <;>
        rcases hl2 : mapping.lookup (pyStrip (String.mk k2)) with _ | n2 <;>
        rw [hl1, hl2] at hp
      · exact hd p hp
      · exact dictSet_good hd (lookup_val_mem_snd hl2) (Or.inl ⟨_, rfl⟩) p hp
      · exact dictSet_good hd (lookup_val_mem_snd hl1) (Or.inl ⟨_, rfl⟩) p hp
      · exact dictSet_good
          (dictSet_good hd (lookup_val_mem_snd hl1) (Or.inl ⟨_, rfl⟩))
          (lookup_val_mem_snd hl2) (Or.inl ⟨_, rfl⟩) p hp
    next =>
      split at hp
      next kb vb heq =>
        rcases hlb : mapping.lookup (pyStrip (String.mk kb)) with _ | nb <;>
          rw [hlb] at hp
        · exact hd p hp
        · exact dictSet_good hd (lookup_val_mem_snd hlb) (Or.inl ⟨_, rfl⟩) p hp
      next =>
        split at hp
        next kc vc heq =>
          rcases hlc : mapping.lookup (pyStrip (String.mk kc)) with _ | nc <;>
            rw [hlc] at hp
          · exact hd p hp
          · exact dictSet_good hd (lookup_val_mem_snd hlc)
              (Or.inr ⟨_, rfl, pyStrip_idem _⟩) p hp
        next => exact hd p hp

theorem parse_output_good (mapping : List (String × String)) (lines : List String) :
    ∀ p ∈ parse_output mapping lines, goodEntry mapping p := by
  unfold parse_output
  suffices h : ∀ data : List (String × ATIVal), (∀ p ∈ data, goodEntry mapping p) →
      ∀ p ∈ lines.foldl (parseOutputLine mapping) data, goodEntry mapping p by
    exact h [] (by intro p hp; cases hp)
  induction lines with
  | nil => intro data hd; simpa using hd
  | cons l ls ih =>
    intro data hd
    exact ih _ (parseOutputLine_good _ _ _ hd)

/-- C9: the diagnostic-block field parser produces only values that are
integers (from all-digit captures) or trimmed strings, drops every label
not present in the fixed mapping (all result keys are mapping
identifiers), and on the line
`Chars sent        1024   Chars Received     2048` with the ATI6 mapping
yields `chars_tx = 1024` and `chars_rx = 2048`. -/
theorem c9_block_fields :
    (∀ (mapping : List (String × String)) (lines : List String) (k : String) (v : ATIVal),
      (parse_output mapping lines).lookup k = some v →
      ((∃ n, v = ATIVal.int n) ∨ (∃ s, v = ATIVal.str s ∧ pyStrip s = s)) ∧
      k ∈ mapping.map Prod.snd) ∧
    (parse_output ati6_mapping
      ["Chars sent        1024   Chars Received     2048"]).lookup "chars_tx" =
      some (ATIVal.int 1024) ∧
    (parse_output ati6_mapping
      ["Chars sent        1024   Chars Received     2048"]).lookup "chars_rx" =
      some (ATIVal.int 2048) := by
  refine ⟨?_, by decide, by decide⟩
  intro mapping lines k v h
  exact parse_output_good mapping lines _ (lookup_pair_mem h)

/-- Witness for C9's quantified part at the concrete block line. -/
theorem c9_block_fields_witness :
    ((∃ n, ATIVal.int 1024 = ATIVal.int n) ∨
      (∃ s, ATIVal.int 1024 = ATIVal.str s ∧ pyStrip s = s)) ∧
    "chars_tx" ∈ ati6_mapping.map Prod.snd :=
  c9_block_fields.1 ati6_mapping
    ["Chars sent        1024   Chars Received     2048"] "chars_tx" (ATIVal.int 1024)
    (by decide)
